import Mathlib

/-!
Shallow embedding of the ChatNES emulator core (src/v1.1/nes_emulator_complete.py,
with the iNES loader also present in src/v1.0/nes_viewer.py) and proofs about it.

Modelling conventions:
* Python `bytearray`s become `List Nat`; the byte invariants (length, elements
  < 256) are stated as hypotheses where a theorem needs them.
* Python list indexing `l[i]` raises `IndexError` out of range; reads are
  embedded as `List.get?` (`none` models the exception) where totality is at
  stake, and `List.getD _ 0` where the index is provably in range.
* Python integers are unbounded and signed; all the emulator's bit operations
  act on non-negative values, so we use `Nat` with `&&&`, `|||`, `^^^`, `>>>`,
  `<<<`.  The few places where Python computes `x - k` on a value that may be
  smaller than `k` before masking (`(SP - 1) & 0xFF`, `PC + offset - 0x100`,
  `(PC - 1) & 0xFFFF`) are embedded as `(x + m - k) &&& m'` with the modulus
  added first, which agrees with Python's two's-complement masking.
* Python `~z & 0x80` (on `z ≥ 0`) equals `(z ^^^ 0xFF) &&& 0x80`; the ADC
  overflow flag is embedded that way.
-/

set_option maxRecDepth 100000
set_option linter.unreachableTactic false
set_option linter.unusedTactic false

/-- The two nametable-mirroring layouts.  The Python source stores them as the
strings "horizontal" and "vertical" in `INESRom.mirroring`. -/
inductive Mirroring where
  | horizontal : Mirroring
  | vertical : Mirroring
deriving DecidableEq, Repr

/-- `INESRom` (src/v1.1 lines 23-52): the fields of the parsed iNES image that
the core consumes. -/
structure INESRom where
  prg_rom : List Nat
  chr_rom : List Nat
  mapper : Nat
  mirroring : Mirroring
  prg_banks : Nat
  chr_banks : Nat
  trainer_present : Bool
deriving DecidableEq, Repr

/-- `INESRom._load` (src/v1.1 lines 35-52), as a function from the file bytes to
the parsed ROM; `none` models the `ValueError` raised on a bad header.  Python
`f.read(n)` returns at most `n` bytes and never fails, which `take`/`drop`
model exactly. -/
def ines_load (data : List Nat) : Option INESRom :=
  let header := data.take 16
  if header.length < 16 ∨ header.take 4 ≠ [0x4E, 0x45, 0x53, 0x1A] then
    none
  else
    let prg_banks := header.getD 4 0
    let chr_banks := header.getD 5 0
    let flags6 := header.getD 6 0
    let flags7 := header.getD 7 0
    let mapper := ((flags7 >>> 4) <<< 4) ||| (flags6 >>> 4)
    let mirroring := if flags6 &&& 1 ≠ 0 then Mirroring.vertical else Mirroring.horizontal
    let trainer_present := flags6 &&& 0x04 ≠ 0
    let rest := data.drop 16
    let rest := if trainer_present then rest.drop 512 else rest
    let prg_rom := rest.take (prg_banks * 16 * 1024)
    let chr_rom := if chr_banks > 0 then (rest.drop (prg_banks * 16 * 1024)).take (chr_banks * 8 * 1024) else []
    some { prg_rom := prg_rom, chr_rom := chr_rom, mapper := mapper,
           mirroring := mirroring, prg_banks := prg_banks, chr_banks := chr_banks,
           trainer_present := trainer_present }

/-- `decode_tile_8x8` (src/v1.1 lines 60-72; identical to `decode_tile` in
src/v1.0 lines 76-90): decode a 16-byte CHR tile into an 8×8 matrix of 2-bit
pixel indices.  The Python row/column loops building `pixels[y][x]` become
nested `List.range 8` maps. -/
def decode_tile_8x8 (tile_bytes : List Nat) : List (List Nat) :=
  let plane0 := tile_bytes.take 8
  let plane1 := (tile_bytes.drop 8).take 8
  (List.range 8).map (fun y =>
    let b0 := plane0.getD y 0
    let b1 := plane1.getD y 0
    (List.range 8).map (fun x =>
      let bit := 7 - x
      let v0 := (b0 >>> bit) &&& 1
      let v1 := (b1 >>> bit) &&& 1
      (v1 <<< 1) ||| v0))

/-- PPU state (src/v1.1 lines 417-437): CHR storage, 2 KiB VRAM, 32-byte
palette RAM, 256-byte OAM. -/
structure PPUState where
  chr : List Nat
  vram : List Nat
  palette : List Nat
  oam : List Nat
deriving DecidableEq, Repr

/-- `PPU.__init__` (src/v1.1 lines 418-433) with `chr_data=None`: CHR comes
from the cartridge, or 8 KiB of CHR-RAM when the cartridge has none. -/
def ppu_new (rom : INESRom) : PPUState :=
  { chr := if rom.chr_rom.length = 0 then List.replicate 8192 0 else rom.chr_rom
    vram := List.replicate 2048 0
    palette := List.replicate 32 0
    oam := List.replicate 256 0 }

/-- `PPU.read` (src/v1.1 lines 440-449).  Note that the nametable window
`$2000-$2EFF` is mapped by `(addr - 0x2000) & 0x07FF` unconditionally: the
cartridge's mirroring flag is never consulted. -/
def ppu_read (p : PPUState) (addr0 : Nat) : Option Nat :=
  let addr := addr0 &&& 0x3FFF
  if addr < 0x2000 then
    p.chr.get? addr
  else if addr < 0x3F00 then
    p.vram.get? ((addr - 0x2000) &&& 0x07FF)
  else
    p.palette.get? ((addr - 0x3F00) % 32)

/-- `PPU.write` (src/v1.1 lines 451-461). -/
def ppu_write (p : PPUState) (addr0 val0 : Nat) : PPUState :=
  let addr := addr0 &&& 0x3FFF
  let val := val0 &&& 0xFF
  if addr < 0x2000 then
    { p with chr := p.chr.set addr val }
  else if addr < 0x3F00 then
    { p with vram := p.vram.set ((addr - 0x2000) &&& 0x07FF) val }
  else
    { p with palette := p.palette.set ((addr - 0x3F00) % 32) val }

/-- The per-frame tile cache of `PPU.render_frame` (src/v1.1 lines 471-472):
`tiles = [decode_tile_8x8(chr[i*16:(i+1)*16]) for i in range(len(chr)//16)]`. -/
def ppu_tiles (p : PPUState) : List (List (List Nat)) :=
  (List.range (p.chr.length / 16)).map
    (fun i => decode_tile_8x8 ((p.chr.drop (i * 16)).take 16))

/-- The background loop body of `PPU.render_frame` (src/v1.1 lines 476-497),
as the palette-table color index written to screen pixel
`(col*8 + tx, row*8 + ty)`.  Every background pixel is written exactly once by
that loop (the initial background fill at lines 466-468 is always painted
over), so this function is the color the background pass leaves at the pixel.
`none` models an `IndexError` escaping from `ppu.read`. -/
def bg_pixel_color_index (p : PPUState) (row col ty tx : Nat) : Option Nat := do
  let tile_index ← ppu_read p (0x2000 + row * 32 + col)
  let tiles := ppu_tiles p
  let tile := tiles.getD (tile_index % max 1 tiles.length) []
  let attr ← ppu_read p (0x23C0 + (row / 4) * 8 + col / 4)
  let shift := (((row % 4) / 2) * 2 + (col % 4) / 2) * 2
  let palette_id := (attr >>> shift) &&& 0x03
  let pal_base := 0x3F00 + palette_id * 4
  let pidx := (tile.getD ty []).getD tx 0 &&& 0x03
  let color_index ← ppu_read p (pal_base + pidx)
  pure (color_index &&& 0x3F)

/-- The whole machine state of `NES` (src/v1.1 lines 529-550) with the
`CPU6502` register file (lines 96-105) flattened in.  The Python code gives
the CPU closures `self.cpu_read`/`self.cpu_write` over the `NES` object; the
embedding threads one combined state instead.  The two-element Python lists
`controller_state`/`controller_shift` become pairs of fields. -/
structure NESState where
  ram : List Nat
  sram : List Nat
  prg : List Nat
  prg_banks : Nat
  ppu : PPUState
  controller_state0 : Nat
  controller_state1 : Nat
  controller_shift0 : Nat
  controller_shift1 : Nat
  controller_strobe : Nat
  A : Nat
  X : Nat
  Y : Nat
  PC : Nat
  SP : Nat
  P : Nat
  cycles : Nat
  nmi_pending : Bool
deriving DecidableEq, Repr

/-- `NES.cpu_read` (src/v1.1 lines 557-583).  Reads of `$4016/$4017` advance
the controller shift register, so the new state is returned alongside the
value; `none` models an `IndexError` from indexing `ram`/`sram`/`prg`. -/
def cpu_read (s : NESState) (addr0 : Nat) : Option (Nat × NESState) :=
  let addr := addr0 &&& 0xFFFF
  if addr ≤ 0x1FFF then
    (s.ram.get? (addr &&& 0x07FF)).map (fun v => (v, s))
  else if addr ≤ 0x3FFF then
    some (0, s)
  else if addr ≤ 0x401F then
    if addr = 0x4016 then
      some ((s.controller_shift0 &&& 1) ||| 0x40,
            { s with controller_shift0 := s.controller_shift0 >>> 1 })
    else if addr = 0x4017 then
      some ((s.controller_shift1 &&& 1) ||| 0x40,
            { s with controller_shift1 := s.controller_shift1 >>> 1 })
    else
      some (0, s)
  else if 0x6000 ≤ addr ∧ addr ≤ 0x7FFF then
    (s.sram.get? (addr - 0x6000)).map (fun v => (v, s))
  else if 0x8000 ≤ addr then
    if s.prg_banks = 1 then
      (s.prg.get? ((addr - 0x8000) % (16 * 1024))).map (fun v => (v, s))
    else
      (s.prg.get? (addr - 0x8000)).map (fun v => (v, s))
  else
    some (0, s)

/-- The OAM-DMA copy loop of `NES.cpu_write` (src/v1.1 lines 600-602):
`for i in range(256): ppu.oam[i] = cpu_read(base + i)`.  `k` counts the
iterations still to run, so the current index is `256 - k`. -/
def dma_copy (base : Nat) : Nat → NESState → Option NESState
  | 0, s => some s
  | k + 1, s =>
    match cpu_read s (base + (256 - (k + 1))) with
    | none => none
    | some (v, s1) =>
      dma_copy base k { s1 with ppu := { s1.ppu with oam := s1.ppu.oam.set (256 - (k + 1)) v } }

/-- `NES.cpu_write` (src/v1.1 lines 586-615).  Only the OAM-DMA branch can
fail (it performs 256 `cpu_read`s). -/
def cpu_write (s : NESState) (addr0 val0 : Nat) : Option NESState :=
  let addr := addr0 &&& 0xFFFF
  let val := val0 &&& 0xFF
  if addr ≤ 0x1FFF then
    some { s with ram := s.ram.set (addr &&& 0x07FF) val }
  else if addr ≤ 0x3FFF then
    some s
  else if addr ≤ 0x401F then
    if addr = 0x4014 then
      dma_copy (val * 0x100) 256 s
    else if addr = 0x4016 then
      let strobe := val &&& 1
      let s := { s with controller_strobe := strobe }
      if strobe ≠ 0 then
        some { s with controller_shift0 := s.controller_state0,
                      controller_shift1 := s.controller_state1 }
      else
        some s
    else
      some s
  else if 0x6000 ≤ addr ∧ addr ≤ 0x7FFF then
    some { s with sram := s.sram.set (addr - 0x6000) val }
  else
    some s

/-- Flag masks (src/v1.1 lines 117-130). -/
def FLAG_N : Nat := 0x80
def FLAG_V : Nat := 0x40
def FLAG_B : Nat := 0x10
def FLAG_D : Nat := 0x08
def FLAG_I : Nat := 0x04
def FLAG_Z : Nat := 0x02
def FLAG_C : Nat := 0x01

/-- `CPU6502.set_flag` (src/v1.1 lines 108-112).  Python `(~mask) & 0xFF`
equals `0xFF ^^^ mask` for `mask ≤ 0xFF`. -/
def set_flag (s : NESState) (mask : Nat) (value : Bool) : NESState :=
  if value then { s with P := s.P ||| mask }
  else { s with P := s.P &&& (0xFF ^^^ mask) }

/-- `CPU6502.get_flag` (src/v1.1 lines 114-115). -/
def get_flag (s : NESState) (mask : Nat) : Bool :=
  s.P &&& mask != 0

/-- `CPU6502.push` (src/v1.1 lines 133-135).  Python `(SP - 1) & 0xFF` on the
signed int becomes `(SP + 0xFF) &&& 0xFF`. -/
def push (s : NESState) (val : Nat) : Option NESState := do
  let s1 ← cpu_write s (0x100 + s.SP) (val &&& 0xFF)
  pure { s1 with SP := (s1.SP + 0xFF) &&& 0xFF }

/-- `CPU6502.pop` (src/v1.1 lines 137-139). -/
def pop (s : NESState) : Option (Nat × NESState) :=
  let s1 := { s with SP := (s.SP + 1) &&& 0xFF }
  cpu_read s1 (0x100 + s1.SP)

/-- `CPU6502.fetch_byte` (src/v1.1 lines 142-145). -/
def fetch_byte (s : NESState) : Option (Nat × NESState) := do
  let (b, s1) ← cpu_read s s.PC
  pure (b, { s1 with PC := (s1.PC + 1) &&& 0xFFFF })

/-- `CPU6502.fetch_word` (src/v1.1 lines 147-150). -/
def fetch_word (s : NESState) : Option (Nat × NESState) := do
  let (lo, s1) ← fetch_byte s
  let (hi, s2) ← fetch_byte s1
  pure (lo ||| (hi <<< 8), s2)

/-- `CPU6502.update_zn` (src/v1.1 lines 160-162). -/
def update_zn (s : NESState) (val : Nat) : NESState :=
  let s1 := set_flag s FLAG_Z ((val &&& 0xFF) == 0)
  set_flag s1 FLAG_N ((val &&& 0x80) != 0)

/-- `CPU6502.read_addr` (src/v1.1 lines 165-166). -/
def read_addr (s : NESState) (addr : Nat) : Option (Nat × NESState) :=
  cpu_read s (addr &&& 0xFFFF)

/-- `CPU6502.write_addr` (src/v1.1 lines 168-169). -/
def write_addr (s : NESState) (addr val : Nat) : Option NESState :=
  cpu_write s (addr &&& 0xFFFF) (val &&& 0xFF)

/-- `CPU6502.am_immediate` (src/v1.1 lines 172-175). -/
def am_immediate (s : NESState) : Nat × NESState :=
  (s.PC, { s with PC := (s.PC + 1) &&& 0xFFFF })

/-- `CPU6502.am_zeropage` (src/v1.1 lines 177-178). -/
def am_zeropage (s : NESState) : Option (Nat × NESState) :=
  fetch_byte s

/-- `CPU6502.am_zeropage_x` (src/v1.1 lines 180-181). -/
def am_zeropage_x (s : NESState) : Option (Nat × NESState) := do
  let (b, s1) ← fetch_byte s
  pure ((b + s1.X) &&& 0xFF, s1)

/-- `CPU6502.am_absolute` (src/v1.1 lines 186-187). -/
def am_absolute (s : NESState) : Option (Nat × NESState) :=
  fetch_word s

/-- `CPU6502.am_relative` (src/v1.1 lines 220-225).  Python
`(PC + offset - 0x100) & 0xFFFF` becomes `(PC + offset + 0xFF00) &&& 0xFFFF`
(the same value modulo 2^16, without going negative). -/
def am_relative (s : NESState) : Option (Nat × NESState) := do
  let (offset, s1) ← fetch_byte s
  if offset < 0x80 then
    pure ((s1.PC + offset) &&& 0xFFFF, s1)
  else
    pure ((s1.PC + offset + 0xFF00) &&& 0xFFFF, s1)

/-- Shared tail of every opcode branch of `CPU6502.step`:
`self.cycles += n; return n`. -/
def stepRet (s : NESState) (n : Nat) : Option (NESState × Nat) :=
  some ({ s with cycles := s.cycles + n }, n)

/-- The ADC computation (src/v1.1 lines 316-328), inlined identically in the
`0x69` and `0x65` branches of the source.  Python `~(A ^ val) & (A ^ result)
& 0x80` equals `((A ^^^ val) ^^^ 0xFF) &&& (A ^^^ result) &&& 0x80`. -/
def adc_exec (s : NESState) (val cyc : Nat) : Option (NESState × Nat) :=
  let carry := if get_flag s FLAG_C then 1 else 0
  let result := s.A + val + carry
  let s := set_flag s FLAG_C (0xFF < result)
  let s := set_flag s FLAG_V ((((s.A ^^^ val) ^^^ 0xFF) &&& (s.A ^^^ result) &&& 0x80) != 0)
  let s := { s with A := result &&& 0xFF }
  stepRet (update_zn s s.A) cyc

/-- The opcode dispatch of `CPU6502.step` (src/v1.1 lines 229-409) after the
opcode byte has been fetched: the same sequential if-chain over opcode
values, each branch ending in `self.cycles += n; return n` (here `stepRet`).
Unknown opcodes fall through to the 2-cycle no-op at lines 406-409. -/
def exec (opcode : Nat) (s : NESState) : Option (NESState × Nat) :=
  -- NOP
  if opcode = 0xEA then stepRet s 2
  -- LDA
  else if opcode = 0xA9 then do
    let (addr, s1) := am_immediate s
    let (v, s2) ← read_addr s1 addr
    let s3 := { s2 with A := v }
    stepRet (update_zn s3 s3.A) 2
  else if opcode = 0xA5 then do
    let (addr, s1) ← am_zeropage s
    let (v, s2) ← read_addr s1 addr
    let s3 := { s2 with A := v }
    stepRet (update_zn s3 s3.A) 3
  else if opcode = 0xB5 then do
    let (addr, s1) ← am_zeropage_x s
    let (v, s2) ← read_addr s1 addr
    let s3 := { s2 with A := v }
    stepRet (update_zn s3 s3.A) 4
  else if opcode = 0xAD then do
    let (addr, s1) ← am_absolute s
    let (v, s2) ← read_addr s1 addr
    let s3 := { s2 with A := v }
    stepRet (update_zn s3 s3.A) 4
  else if opcode = 0xBD then do
    let (base, s1) ← fetch_word s
    let addr := (base + s1.X) &&& 0xFFFF
    let (v, s2) ← read_addr s1 addr
    let s3 := { s2 with A := v }
    stepRet (update_zn s3 s3.A) 4
  else if opcode = 0xB9 then do
    let (base, s1) ← fetch_word s
    let addr := (base + s1.Y) &&& 0xFFFF
    let (v, s2) ← read_addr s1 addr
    let s3 := { s2 with A := v }
    stepRet (update_zn s3 s3.A) 4
  else if opcode = 0xA1 then do
    let (b, s1) ← fetch_byte s
    let zp := (b + s1.X) &&& 0xFF
    let (lo, s2) ← read_addr s1 zp
    let (hi, s3) ← read_addr s2 ((zp + 1) &&& 0xFF)
    let addr := (hi <<< 8) ||| lo
    let (v, s4) ← read_addr s3 addr
    let s5 := { s4 with A := v }
    stepRet (update_zn s5 s5.A) 6
  else if opcode = 0xB1 then do
    let (zp, s1) ← fetch_byte s
    let (lo, s2) ← read_addr s1 zp
    let (hi, s3) ← read_addr s2 ((zp + 1) &&& 0xFF)
    let base := (hi <<< 8) ||| lo
    let addr := (base + s3.Y) &&& 0xFFFF
    let (v, s4) ← read_addr s3 addr
    let s5 := { s4 with A := v }
    stepRet (update_zn s5 s5.A) 5
  -- STA
  else if opcode = 0x85 then do
    let (addr, s1) ← am_zeropage s
    let s2 ← write_addr s1 addr s1.A
    stepRet s2 3
  else if opcode = 0x8D then do
    let (addr, s1) ← am_absolute s
    let s2 ← write_addr s1 addr s1.A
    stepRet s2 4
  else if opcode = 0x95 then do
    let (addr, s1) ← am_zeropage_x s
    let s2 ← write_addr s1 addr s1.A
    stepRet s2 4
  else if opcode = 0x9D then do
    let (base, s1) ← fetch_word s
    let addr := (base + s1.X) &&& 0xFFFF
    let s2 ← write_addr s1 addr s1.A
    stepRet s2 5
  else if opcode = 0x99 then do
    let (base, s1) ← fetch_word s
    let addr := (base + s1.Y) &&& 0xFFFF
    let s2 ← write_addr s1 addr s1.A
    stepRet s2 5
  else if opcode = 0x81 then do
    let (b, s1) ← fetch_byte s
    let zp := (b + s1.X) &&& 0xFF
    let (lo, s2) ← read_addr s1 zp
    let (hi, s3) ← read_addr s2 ((zp + 1) &&& 0xFF)
    let addr := (hi <<< 8) ||| lo
    let s4 ← write_addr s3 addr s3.A
    stepRet s4 6
  else if opcode = 0x91 then do
    let (zp, s1) ← fetch_byte s
    let (lo, s2) ← read_addr s1 zp
    let (hi, s3) ← read_addr s2 ((zp + 1) &&& 0xFF)
    let base := (hi <<< 8) ||| lo
    let addr := (base + s3.Y) &&& 0xFFFF
    let s4 ← write_addr s3 addr s3.A
    stepRet s4 6
  -- TAX/TAY/TXA/TYA
  else if opcode = 0xAA then
    let s1 := { s with X := s.A }; stepRet (update_zn s1 s1.X) 2
  else if opcode = 0xA8 then
    let s1 := { s with Y := s.A }; stepRet (update_zn s1 s1.Y) 2
  else if opcode = 0x8A then
    let s1 := { s with A := s.X }; stepRet (update_zn s1 s1.A) 2
  else if opcode = 0x98 then
    let s1 := { s with A := s.Y }; stepRet (update_zn s1 s1.A) 2
  -- INX/INY/DEX/DEY ((X - 1) & 0xFF becomes (X + 0xFF) &&& 0xFF)
  else if opcode = 0xE8 then
    let s1 := { s with X := (s.X + 1) &&& 0xFF }; stepRet (update_zn s1 s1.X) 2
  else if opcode = 0xC8 then
    let s1 := { s with Y := (s.Y + 1) &&& 0xFF }; stepRet (update_zn s1 s1.Y) 2
  else if opcode = 0xCA then
    let s1 := { s with X := (s.X + 0xFF) &&& 0xFF }; stepRet (update_zn s1 s1.X) 2
  else if opcode = 0x88 then
    let s1 := { s with Y := (s.Y + 0xFF) &&& 0xFF }; stepRet (update_zn s1 s1.Y) 2
  -- ADC (immediate and zeropage only; the other modes are absent in the source)
  else if opcode = 0x69 then do
    let (val, s1) ← fetch_byte s
    adc_exec s1 val 2
  else if opcode = 0x65 then do
    let (addr, s1) ← am_zeropage s
    let (val, s2) ← read_addr s1 addr
    adc_exec s2 val 3
  -- Branches
  else if opcode = 0xD0 then do
    let (addr, s1) ← am_relative s
    if !(get_flag s1 FLAG_Z) then stepRet { s1 with PC := addr } 3 else stepRet s1 2
  else if opcode = 0xF0 then do
    let (addr, s1) ← am_relative s
    if get_flag s1 FLAG_Z then stepRet { s1 with PC := addr } 3 else stepRet s1 2
  else if opcode = 0x90 then do
    let (addr, s1) ← am_relative s
    if !(get_flag s1 FLAG_C) then stepRet { s1 with PC := addr } 3 else stepRet s1 2
  else if opcode = 0xB0 then do
    let (addr, s1) ← am_relative s
    if get_flag s1 FLAG_C then stepRet { s1 with PC := addr } 3 else stepRet s1 2
  -- JMP absolute / indirect (page-wrap read reproduced from lines 358-364)
  else if opcode = 0x4C then do
    let (addr, s1) ← fetch_word s
    stepRet { s1 with PC := addr } 3
  else if opcode = 0x6C then do
    let (ptr, s1) ← fetch_word s
    let (lo, s2) ← read_addr s1 ptr
    let (hi, s3) ←
      if ptr &&& 0xFF = 0xFF then read_addr s2 (ptr &&& 0xFF00)
      else read_addr s2 (ptr + 1)
    stepRet { s3 with PC := (hi <<< 8) ||| lo } 5
  -- JSR / RTS ((PC - 1) & 0xFFFF becomes (PC + 0xFFFF) &&& 0xFFFF)
  else if opcode = 0x20 then do
    let (addr, s1) ← fetch_word s
    let ret := (s1.PC + 0xFFFF) &&& 0xFFFF
    let s2 ← push s1 ((ret >>> 8) &&& 0xFF)
    let s3 ← push s2 (ret &&& 0xFF)
    stepRet { s3 with PC := addr } 6
  else if opcode = 0x60 then do
    let (lo, s1) ← pop s
    let (hi, s2) ← pop s1
    stepRet { s2 with PC := ((hi <<< 8) ||| lo) + 1 } 6
  -- BRK
  else if opcode = 0x00 then do
    let (_, s1) ← fetch_byte s
    let ret := s1.PC
    let s2 ← push s1 ((ret >>> 8) &&& 0xFF)
    let s3 ← push s2 (ret &&& 0xFF)
    let s4 ← push s3 (s3.P ||| 0x10)
    let s5 := set_flag s4 FLAG_I true
    let (lo, s6) ← read_addr s5 0xFFFE
    let (hi, s7) ← read_addr s6 0xFFFF
    stepRet { s7 with PC := (hi <<< 8) ||| lo } 7
  -- RTI (Python `p & (~0x10) & 0xFF` equals `p &&& 0xEF`)
  else if opcode = 0x40 then do
    let (p, s1) ← pop s
    let s2 := { s1 with P := p &&& 0xEF }
    let (lo, s3) ← pop s2
    let (hi, s4) ← pop s3
    stepRet { s4 with PC := (hi <<< 8) ||| lo } 6
  -- CLC/SEC/CLI/SEI
  else if opcode = 0x18 then stepRet (set_flag s FLAG_C false) 2
  else if opcode = 0x38 then stepRet (set_flag s FLAG_C true) 2
  else if opcode = 0x58 then stepRet (set_flag s FLAG_I false) 2
  else if opcode = 0x78 then stepRet (set_flag s FLAG_I true) 2
  -- PHA/PLA
  else if opcode = 0x48 then do
    let s1 ← push s s.A
    stepRet s1 3
  else if opcode = 0x68 then do
    let (v, s1) ← pop s
    let s2 := { s1 with A := v }
    stepRet (update_zn s2 s2.A) 4
  -- Default fallback: treat as NOP (src/v1.1 lines 406-409)
  else stepRet s 2

/-- `CPU6502.step` (src/v1.1 line 230 plus the dispatch above). -/
def cpu_step (s : NESState) : Option (NESState × Nat) := do
  let (opcode, s1) ← fetch_byte s
  exec opcode s1

/-- The NMI service sequence inside `NES.run_cpu_cycles` (src/v1.1 lines
621-629): clear the pending flag, push PC high then low, push
`P & ~0x10 & 0xFF` (note: bit 5 is NOT forced to 1), set I, load PC from
`$FFFA/$FFFB`. -/
def nmi_service (s : NESState) : Option NESState := do
  let s0 := { s with nmi_pending := false }
  let pc := s0.PC
  let s1 ← push s0 ((pc >>> 8) &&& 0xFF)
  let s2 ← push s1 (pc &&& 0xFF)
  let s3 ← push s2 (s2.P &&& 0xEF)
  let s4 := set_flag s3 FLAG_I true
  let (lo, s5) ← cpu_read s4 0xFFFA
  let (hi, s6) ← cpu_read s5 0xFFFB
  pure { s6 with PC := (hi <<< 8) ||| lo }

/-- Outcome of the `run_cpu_cycles` loop: the budget was reached, a memory
access raised (Python exception), or the structural fuel ran out (never
happens; see the C9 theorem). -/
inductive RunOutcome where
  | done : NESState → Nat → RunOutcome
  | busError : RunOutcome
  | fuelOut : RunOutcome
deriving Repr

/-- The `while cycles < target_cycles` loop of `NES.run_cpu_cycles` (src/v1.1
lines 618-632), with explicit fuel to make the recursion structural. -/
def run_go (target : Nat) : Nat → Nat → NESState → RunOutcome
  | 0, cycles, s =>
    if target ≤ cycles then .done s cycles else .fuelOut
  | fuel + 1, cycles, s =>
    if target ≤ cycles then .done s cycles
    else
      match (if s.nmi_pending then nmi_service s else some s) with
      | none => .busError
      | some s1 =>
        match cpu_step s1 with
        | none => .busError
        | some (s2, c) => run_go target fuel (cycles + c) s2

/-- `NES.run_cpu_cycles` (src/v1.1 lines 618-632).  One fuel unit per loop
iteration; `target` units always suffice because every `cpu_step` adds at
least 2 cycles (proved below). -/
def run_cpu_cycles (s : NESState) (target : Nat) : RunOutcome :=
  run_go target target 0 s

/-- `m+1` successive CPU reads of controller port `port`, returning the last
value read and the final state ("further reads" past the first eight in the
controller protocol). -/
def nth_read (port : Nat) : NESState → Nat → Option (Nat × NESState)
  | s, 0 => cpu_read s port
  | s, n + 1 => do
    let (_, s1) ← cpu_read s port
    nth_read port s1 n

/-- The controller protocol of the spec: write 1 then 0 to `$4016` (latching
both controllers' buttons into the shift registers), then read the given port
`m+1` times, returning the last read. -/
def controller_read_after_latch (port : Nat) (s : NESState) (m : Nat) :
    Option (Nat × NESState) := do
  let s1 ← cpu_write s 0x4016 1
  let s2 ← cpu_write s1 0x4016 0
  nth_read port s2 m

/-- The state right after the strobe-high/strobe-low write pair: both shift
registers hold the latched button bitmaps. -/
def latched (s : NESState) : NESState :=
  { s with controller_strobe := 0,
           controller_shift0 := s.controller_state0,
           controller_shift1 := s.controller_state1 }

/-- Well-formedness of a machine state as `NES.__init__` (src/v1.1 lines
530-550) establishes it for a full-length mapper-0 image: byte arrays have
their construction sizes and hold bytes, and PRG is 16 KiB or 32 KiB. -/
def NES_WF (s : NESState) : Prop :=
  s.ram.length = 2048 ∧ (∀ b ∈ s.ram, b < 256) ∧
  s.sram.length = 8192 ∧ (∀ b ∈ s.sram, b < 256) ∧
  (s.prg_banks = 1 ∨ s.prg_banks = 2) ∧
  s.prg.length = s.prg_banks * 16384 ∧ (∀ b ∈ s.prg, b < 256)

/-- A 16-byte iNES image whose flags6 bit 0 is clear: horizontal mirroring,
mapper 0, no PRG/CHR payload (so the PPU gets 8 KiB CHR-RAM). -/
def c1bytes : List Nat :=
  [0x4E, 0x45, 0x53, 0x1A, 0, 0, 0, 0, 0, 0, 0, 0, 0, 0, 0, 0]

/-- A 16-byte iNES image declaring PRG bank count 3 and mapper 4 (flags6 high
nibble 4): both outside what the spec says the loader accepts. -/
def c7bytes : List Nat :=
  [0x4E, 0x45, 0x53, 0x1A, 3, 0, 0x40, 0, 0, 0, 0, 0, 0, 0, 0, 0]

/-- A freshly constructed PPU state (all-zero CHR-RAM truncated to one tile,
as `PPU.__init__` permits via its `chr_data` argument; zero VRAM, palette,
OAM). -/
def ppu0 : PPUState :=
  { chr := List.replicate 16 0
    vram := List.replicate 2048 0
    palette := List.replicate 32 0
    oam := List.replicate 256 0 }

/-- A PPU state for the background-rendering claim: universal background
color 1 at `$3F00`, color 2 at `$3F04` (entry 0 of subpalette 1), attribute
byte `$23C0 = 0x01` selecting subpalette 1 for the top-left tiles, and an
all-zero tile 0. -/
def c4ppu : PPUState :=
  { chr := List.replicate 16 0
    vram := (List.replicate 2048 0).set 960 0x01
    palette := ((List.replicate 32 0).set 0 1).set 4 2
    oam := List.replicate 256 0 }

/-- A machine about to execute `SBC #$01` (opcode `0xE9`, operand 1) at
`PC = 0` with `A = 0`, `P = 0x24` (carry clear). -/
def c3state : NESState :=
  { ram := ((List.replicate 2048 0).set 0 0xE9).set 1 0x01
    sram := List.replicate 8192 0
    prg := []
    prg_banks := 1
    ppu := ppu0
    controller_state0 := 0, controller_state1 := 0
    controller_shift0 := 0, controller_shift1 := 0
    controller_strobe := 0
    A := 0, X := 0, Y := 0, PC := 0, SP := 0xFD, P := 0x24
    cycles := 0, nmi_pending := false }

/-- A machine with a pending NMI whose status register has bit 5 clear
(`P = 0x04`), full 16 KiB PRG, `SP = 0xFD`. -/
def c5state : NESState :=
  { ram := List.replicate 2048 0
    sram := List.replicate 8192 0
    prg := List.replicate 16384 0
    prg_banks := 1
    ppu := ppu0
    controller_state0 := 0, controller_state1 := 0
    controller_shift0 := 0, controller_shift1 := 0
    controller_strobe := 0
    A := 0, X := 0, Y := 0, PC := 0xC000, SP := 0xFD, P := 0x04
    cycles := 0, nmi_pending := true }

/-- A machine whose controller 1 has all eight buttons held
(`controller_state[0] = 0xFF`) and controller 2 a mixed pattern. -/
def c6state : NESState :=
  { ram := List.replicate 2048 0
    sram := List.replicate 8192 0
    prg := []
    prg_banks := 1
    ppu := ppu0
    controller_state0 := 0xFF, controller_state1 := 0xA5
    controller_shift0 := 0, controller_shift1 := 0
    controller_strobe := 0
    A := 0, X := 0, Y := 0, PC := 0, SP := 0xFD, P := 0x24
    cycles := 0, nmi_pending := false }

/-- A 16-byte CHR tile: plane-0 row 0 is `0x0F`, plane-1 row 0 is `0xF0`. -/
def c8tile : List Nat :=
  [0x0F, 0, 0, 0, 0, 0, 0, 0, 0xF0, 0, 0, 0, 0, 0, 0, 0]

/-! Helper lemmas: bit masks as moduli, list access, and evaluation rules for
the stack, PRG reads and the NMI sequence. -/

theorem and_mask_ffff (x : Nat) : x &&& 0xFFFF = x % 0x10000 := by
  have h := Nat.and_pow_two_sub_one_eq_mod x 16
  norm_num at h
  exact h

theorem and_mask_7ff (x : Nat) : x &&& 0x7FF = x % 0x800 := by
  have h := Nat.and_pow_two_sub_one_eq_mod x 11
  norm_num at h
  exact h

theorem and_mask_ff (x : Nat) : x &&& 0xFF = x % 0x100 := by
  have h := Nat.and_pow_two_sub_one_eq_mod x 8
  norm_num at h
  exact h

theorem and_mask_one (x : Nat) : x &&& 1 = x % 2 := Nat.and_one_is_mod x

theorem opt_bind_eq_some {α β : Type} (o : Option α) (f : α → Option β) (b : β) :
    (o >>= f) = some b ↔ ∃ a, o = some a ∧ f a = some b :=
  Option.bind_eq_some

theorem list_getD_set_eq (l : List Nat) (i v : Nat) (h : i < l.length) :
    (l.set i v).getD i 0 = v := by
  simp [List.getD_eq_getElem?_getD, List.getElem?_set_self', h]

theorem list_getD_set_ne (l : List Nat) (i j v : Nat) (h : i ≠ j) :
    (l.set i v).getD j 0 = l.getD j 0 := by
  simp [List.getD_eq_getElem?_getD, List.getElem?_set_ne h]

theorem list_get?_eq_getD (l : List Nat) (i : Nat) (h : i < l.length) :
    l.get? i = some (l.getD i 0) := by
  simp [List.getD_eq_getElem?_getD, List.get?_eq_getElem?, List.getElem?_eq_getElem h]

theorem list_getD_bound (l : List Nat) (i : Nat) (h : i < l.length)
    (hb : ∀ b ∈ l, b < 256) : l.getD i 0 < 256 := by
  rw [List.getD_eq_getElem?_getD, List.getElem?_eq_getElem h]
  exact hb _ (List.getElem_mem h)

/-- `push` writes `val & 0xFF` to stack page address `$100 + SP` (which is in
work RAM) and decrements `SP`; wrap-free statement for `1 ≤ SP ≤ 0xFF`. -/
theorem push_spec (s : NESState) (v : Nat)
    (h2 : 1 ≤ s.SP) (h3 : s.SP ≤ 0xFF) :
    push s v = some { s with ram := s.ram.set (0x100 + s.SP) (v &&& 0xFF),
                             SP := s.SP - 1 } := by
  have ha : (0x100 + s.SP) &&& 0xFFFF = 0x100 + s.SP := by
    rw [and_mask_ffff]; omega
  have hc : (s.SP + 0xFF) &&& 0xFF = s.SP - 1 := by
    rw [and_mask_ff]; omega
  have hb : (0x100 + s.SP) &&& 0x7FF = 0x100 + s.SP := by
    rw [and_mask_7ff]; omega
  simp only [push, cpu_write, ha, hb]
  rw [if_pos (by omega : 0x100 + s.SP ≤ 0x1FFF)]
  have hd : v &&& 0xFF &&& 0xFF = v &&& 0xFF := by
    rw [Nat.and_assoc, Nat.and_self]
  simp only [Option.bind_eq_bind, Option.some_bind, hc, hd]
  rfl

/-- A read of `$8000-$FFFF` on a one-bank cartridge returns the PRG byte at
the address modulo 16 KiB, without touching the rest of the state. -/
theorem prg1_read_spec (s : NESState) (a : Nat)
    (hb : s.prg_banks = 1) (hl : s.prg.length = 16384)
    (ha : 0x8000 ≤ a) (ha2 : a ≤ 0xFFFF) :
    cpu_read s a = some (s.prg.getD ((a - 0x8000) % 16384) 0, s) := by
  have h0 : a &&& 0xFFFF = a := by rw [and_mask_ffff]; omega
  simp only [cpu_read, h0]
  rw [if_neg (by omega : ¬ a ≤ 0x1FFF), if_neg (by omega : ¬ a ≤ 0x3FFF),
      if_neg (by omega : ¬ a ≤ 0x401F),
      if_neg (by omega : ¬ (0x6000 ≤ a ∧ a ≤ 0x7FFF)),
      if_pos ha, if_pos hb]
  have hlt : (a - 0x8000) % 16384 < s.prg.length := by
    rw [hl]; exact Nat.mod_lt _ (by norm_num)
  rw [List.get?_eq_getElem?, List.getElem?_eq_getElem hlt]
  simp [List.getD_eq_getElem?_getD, List.getElem?_eq_getElem hlt]

/-- Full characterisation of the NMI service sequence (src/v1.1 lines
621-629) on a wrap-free stack: PC high, PC low, then `P & ~0x10 & 0xFF` are
pushed (bit 5 of `P` is left as it is), `I` is set, and `PC` is loaded from
the PRG bytes that back `$FFFA/$FFFB`. -/
theorem nmi_service_spec (s : NESState) (h2 : 3 ≤ s.SP) (h3 : s.SP ≤ 0xFF)
    (hb : s.prg_banks = 1) (hl : s.prg.length = 16384) :
    nmi_service s = some { s with
      ram := ((s.ram.set (0x100 + s.SP) (s.PC >>> 8 &&& 0xFF)).set
                (0x100 + (s.SP - 1)) (s.PC &&& 0xFF)).set
                (0x100 + (s.SP - 2)) (s.P &&& 0xEF &&& 0xFF)
      SP := s.SP - 3
      P := s.P ||| 0x04
      PC := ((s.prg.getD 0x3FFB 0) <<< 8) ||| s.prg.getD 0x3FFA 0
      nmi_pending := false } := by
  have h11 : s.SP - 1 - 1 = s.SP - 2 := by omega
  have e1 : push { s with nmi_pending := false } (s.PC >>> 8 &&& 0xFF)
      = some { s with nmi_pending := false,
                      ram := s.ram.set (0x100 + s.SP) (s.PC >>> 8 &&& 0xFF),
                      SP := s.SP - 1 } := by
    rw [push_spec { s with nmi_pending := false } _
          (by show 1 ≤ s.SP; omega) (by show s.SP ≤ 0xFF; omega)]
    simp only [Nat.and_assoc, Nat.and_self]
  have e2 : push { s with nmi_pending := false,
                          ram := s.ram.set (0x100 + s.SP) (s.PC >>> 8 &&& 0xFF),
                          SP := s.SP - 1 } (s.PC &&& 0xFF)
      = some { s with nmi_pending := false,
                      ram := (s.ram.set (0x100 + s.SP) (s.PC >>> 8 &&& 0xFF)).set
                               (0x100 + (s.SP - 1)) (s.PC &&& 0xFF),
                      SP := s.SP - 2 } := by
    rw [push_spec _ _ (by show 1 ≤ s.SP - 1; omega) (by show s.SP - 1 ≤ 0xFF; omega)]
    simp only [Nat.and_assoc, Nat.and_self, h11]
  have e3 : push { s with nmi_pending := false,
                          ram := (s.ram.set (0x100 + s.SP) (s.PC >>> 8 &&& 0xFF)).set
                                   (0x100 + (s.SP - 1)) (s.PC &&& 0xFF),
                          SP := s.SP - 2 } (s.P &&& 0xEF)
      = some { s with nmi_pending := false,
                      ram := ((s.ram.set (0x100 + s.SP) (s.PC >>> 8 &&& 0xFF)).set
                               (0x100 + (s.SP - 1)) (s.PC &&& 0xFF)).set
                               (0x100 + (s.SP - 2)) (s.P &&& 0xEF &&& 0xFF),
                      SP := s.SP - 3 } := by
    rw [push_spec _ _ (by show 1 ≤ s.SP - 2; omega) (by show s.SP - 2 ≤ 0xFF; omega)]
    have h21 : s.SP - 2 - 1 = s.SP - 3 := by omega
    simp only [h21]
  simp only [nmi_service]
  rw [e1]
  simp only [Option.bind_eq_bind, Option.some_bind]
  rw [e2]
  simp only [Option.bind_eq_bind, Option.some_bind]
  rw [e3]
  simp only [Option.bind_eq_bind, Option.some_bind, set_flag, FLAG_I]
  rw [prg1_read_spec _ 0xFFFA (by simpa using hb) (by simpa using hl)
        (by norm_num) (by norm_num)]
  simp only [Option.bind_eq_bind, Option.some_bind]
  rw [prg1_read_spec _ 0xFFFB (by simpa using hb) (by simpa using hl)
        (by norm_num) (by norm_num)]
  simp only [Option.bind_eq_bind, Option.some_bind]
  norm_num

theorem stepRet_cycles (s : NESState) (n : Nat) (s' : NESState) (c : Nat)
    (h : stepRet s n = some (s', c)) : c = n := by
  simp only [stepRet, Option.some.injEq, Prod.mk.injEq] at h
  exact h.2.symm

/-- Every branch of the opcode dispatch returns at least 2 cycles, the
unknown-opcode fallback included: mechanical case split over the if-chain. -/
theorem exec_cycles (op : Nat) (s s' : NESState) (c : Nat)
    (h : exec op s = some (s', c)) : 2 ≤ c := by
  unfold exec at h
  by_cases e0 : op = 0xEA
  · rw [if_pos e0] at h
    repeat'
      first
      | (rw [opt_bind_eq_some] at h
         obtain ⟨w, -, h⟩ := h
         try obtain ⟨w1, w2⟩ := w
         try dsimp only at h)
      | split at h
    all_goals simp only [adc_exec, stepRet, Option.some.injEq, Prod.mk.injEq] at h
    all_goals omega
  rw [if_neg e0] at h
  by_cases e1 : op = 0xA9
  · rw [if_pos e1] at h
    repeat'
      first
      | (rw [opt_bind_eq_some] at h
         obtain ⟨w, -, h⟩ := h
         try obtain ⟨w1, w2⟩ := w
         try dsimp only at h)
      | split at h
    all_goals simp only [adc_exec, stepRet, Option.some.injEq, Prod.mk.injEq] at h
    all_goals omega
  rw [if_neg e1] at h
  by_cases e2 : op = 0xA5
  · rw [if_pos e2] at h
    repeat'
      first
      | (rw [opt_bind_eq_some] at h
         obtain ⟨w, -, h⟩ := h
         try obtain ⟨w1, w2⟩ := w
         try dsimp only at h)
      | split at h
    all_goals simp only [adc_exec, stepRet, Option.some.injEq, Prod.mk.injEq] at h
    all_goals omega
  rw [if_neg e2] at h
  by_cases e3 : op = 0xB5
  · rw [if_pos e3] at h
    repeat'
      first
      | (rw [opt_bind_eq_some] at h
         obtain ⟨w, -, h⟩ := h
         try obtain ⟨w1, w2⟩ := w
         try dsimp only at h)
      | split at h
    all_goals simp only [adc_exec, stepRet, Option.some.injEq, Prod.mk.injEq] at h
    all_goals omega
  rw [if_neg e3] at h
  by_cases e4 : op = 0xAD
  · rw [if_pos e4] at h
    repeat'
      first
      | (rw [opt_bind_eq_some] at h
         obtain ⟨w, -, h⟩ := h
         try obtain ⟨w1, w2⟩ := w
         try dsimp only at h)
      | split at h
    all_goals simp only [adc_exec, stepRet, Option.some.injEq, Prod.mk.injEq] at h
    all_goals omega
  rw [if_neg e4] at h
  by_cases e5 : op = 0xBD
  · rw [if_pos e5] at h
    repeat'
      first
      | (rw [opt_bind_eq_some] at h
         obtain ⟨w, -, h⟩ := h
         try obtain ⟨w1, w2⟩ := w
         try dsimp only at h)
      | split at h
    all_goals simp only [adc_exec, stepRet, Option.some.injEq, Prod.mk.injEq] at h
    all_goals omega
  rw [if_neg e5] at h
  by_cases e6 : op = 0xB9
  · rw [if_pos e6] at h
    repeat'
      first
      | (rw [opt_bind_eq_some] at h
         obtain ⟨w, -, h⟩ := h
         try obtain ⟨w1, w2⟩ := w
         try dsimp only at h)
      | split at h
    all_goals simp only [adc_exec, stepRet, Option.some.injEq, Prod.mk.injEq] at h
    all_goals omega
  rw [if_neg e6] at h
  by_cases e7 : op = 0xA1
  · rw [if_pos e7] at h
    repeat'
      first
      | (rw [opt_bind_eq_some] at h
         obtain ⟨w, -, h⟩ := h
         try obtain ⟨w1, w2⟩ := w
         try dsimp only at h)
      | split at h
    all_goals simp only [adc_exec, stepRet, Option.some.injEq, Prod.mk.injEq] at h
    all_goals omega
  rw [if_neg e7] at h
  by_cases e8 : op = 0xB1
  · rw [if_pos e8] at h
    repeat'
      first
      | (rw [opt_bind_eq_some] at h
         obtain ⟨w, -, h⟩ := h
         try obtain ⟨w1, w2⟩ := w
         try dsimp only at h)
      | split at h
    all_goals simp only [adc_exec, stepRet, Option.some.injEq, Prod.mk.injEq] at h
    all_goals omega
  rw [if_neg e8] at h
  by_cases e9 : op = 0x85
  · rw [if_pos e9] at h
    repeat'
      first
      | (rw [opt_bind_eq_some] at h
         obtain ⟨w, -, h⟩ := h
         try obtain ⟨w1, w2⟩ := w
         try dsimp only at h)
      | split at h
    all_goals simp only [adc_exec, stepRet, Option.some.injEq, Prod.mk.injEq] at h
    all_goals omega
  rw [if_neg e9] at h
  by_cases e10 : op = 0x8D
  · rw [if_pos e10] at h
    repeat'
      first
      | (rw [opt_bind_eq_some] at h
         obtain ⟨w, -, h⟩ := h
         try obtain ⟨w1, w2⟩ := w
         try dsimp only at h)
      | split at h
    all_goals simp only [adc_exec, stepRet, Option.some.injEq, Prod.mk.injEq] at h
    all_goals omega
  rw [if_neg e10] at h
  by_cases e11 : op = 0x95
  · rw [if_pos e11] at h
    repeat'
      first
      | (rw [opt_bind_eq_some] at h
         obtain ⟨w, -, h⟩ := h
         try obtain ⟨w1, w2⟩ := w
         try dsimp only at h)
      | split at h
    all_goals simp only [adc_exec, stepRet, Option.some.injEq, Prod.mk.injEq] at h
    all_goals omega
  rw [if_neg e11] at h
  by_cases e12 : op = 0x9D
  · rw [if_pos e12] at h
    repeat'
      first
      | (rw [opt_bind_eq_some] at h
         obtain ⟨w, -, h⟩ := h
         try obtain ⟨w1, w2⟩ := w
         try dsimp only at h)
      | split at h
    all_goals simp only [adc_exec, stepRet, Option.some.injEq, Prod.mk.injEq] at h
    all_goals omega
  rw [if_neg e12] at h
  by_cases e13 : op = 0x99
  · rw [if_pos e13] at h
    repeat'
      first
      | (rw [opt_bind_eq_some] at h
         obtain ⟨w, -, h⟩ := h
         try obtain ⟨w1, w2⟩ := w
         try dsimp only at h)
      | split at h
    all_goals simp only [adc_exec, stepRet, Option.some.injEq, Prod.mk.injEq] at h
    all_goals omega
  rw [if_neg e13] at h
  by_cases e14 : op = 0x81
  · rw [if_pos e14] at h
    repeat'
      first
      | (rw [opt_bind_eq_some] at h
         obtain ⟨w, -, h⟩ := h
         try obtain ⟨w1, w2⟩ := w
         try dsimp only at h)
      | split at h
    all_goals simp only [adc_exec, stepRet, Option.some.injEq, Prod.mk.injEq] at h
    all_goals omega
  rw [if_neg e14] at h
  by_cases e15 : op = 0x91
  · rw [if_pos e15] at h
    repeat'
      first
      | (rw [opt_bind_eq_some] at h
         obtain ⟨w, -, h⟩ := h
         try obtain ⟨w1, w2⟩ := w
         try dsimp only at h)
      | split at h
    all_goals simp only [adc_exec, stepRet, Option.some.injEq, Prod.mk.injEq] at h
    all_goals omega
  rw [if_neg e15] at h
  by_cases e16 : op = 0xAA
  · rw [if_pos e16] at h
    repeat'
      first
      | (rw [opt_bind_eq_some] at h
         obtain ⟨w, -, h⟩ := h
         try obtain ⟨w1, w2⟩ := w
         try dsimp only at h)
      | split at h
    all_goals simp only [adc_exec, stepRet, Option.some.injEq, Prod.mk.injEq] at h
    all_goals omega
  rw [if_neg e16] at h
  by_cases e17 : op = 0xA8
  · rw [if_pos e17] at h
    repeat'
      first
      | (rw [opt_bind_eq_some] at h
         obtain ⟨w, -, h⟩ := h
         try obtain ⟨w1, w2⟩ := w
         try dsimp only at h)
      | split at h
    all_goals simp only [adc_exec, stepRet, Option.some.injEq, Prod.mk.injEq] at h
    all_goals omega
  rw [if_neg e17] at h
  by_cases e18 : op = 0x8A
  · rw [if_pos e18] at h
    repeat'
      first
      | (rw [opt_bind_eq_some] at h
         obtain ⟨w, -, h⟩ := h
         try obtain ⟨w1, w2⟩ := w
         try dsimp only at h)
      | split at h
    all_goals simp only [adc_exec, stepRet, Option.some.injEq, Prod.mk.injEq] at h
    all_goals omega
  rw [if_neg e18] at h
  by_cases e19 : op = 0x98
  · rw [if_pos e19] at h
    repeat'
      first
      | (rw [opt_bind_eq_some] at h
         obtain ⟨w, -, h⟩ := h
         try obtain ⟨w1, w2⟩ := w
         try dsimp only at h)
      | split at h
    all_goals simp only [adc_exec, stepRet, Option.some.injEq, Prod.mk.injEq] at h
    all_goals omega
  rw [if_neg e19] at h
  by_cases e20 : op = 0xE8
  · rw [if_pos e20] at h
    repeat'
      first
      | (rw [opt_bind_eq_some] at h
         obtain ⟨w, -, h⟩ := h
         try obtain ⟨w1, w2⟩ := w
         try dsimp only at h)
      | split at h
    all_goals simp only [adc_exec, stepRet, Option.some.injEq, Prod.mk.injEq] at h
    all_goals omega
  rw [if_neg e20] at h
  by_cases e21 : op = 0xC8
  · rw [if_pos e21] at h
    repeat'
      first
      | (rw [opt_bind_eq_some] at h
         obtain ⟨w, -, h⟩ := h
         try obtain ⟨w1, w2⟩ := w
         try dsimp only at h)
      | split at h
    all_goals simp only [adc_exec, stepRet, Option.some.injEq, Prod.mk.injEq] at h
    all_goals omega
  rw [if_neg e21] at h
  by_cases e22 : op = 0xCA
  · rw [if_pos e22] at h
    repeat'
      first
      | (rw [opt_bind_eq_some] at h
         obtain ⟨w, -, h⟩ := h
         try obtain ⟨w1, w2⟩ := w
         try dsimp only at h)
      | split at h
    all_goals simp only [adc_exec, stepRet, Option.some.injEq, Prod.mk.injEq] at h
    all_goals omega
  rw [if_neg e22] at h
  by_cases e23 : op = 0x88
  · rw [if_pos e23] at h
    repeat'
      first
      | (rw [opt_bind_eq_some] at h
         obtain ⟨w, -, h⟩ := h
         try obtain ⟨w1, w2⟩ := w
         try dsimp only at h)
      | split at h
    all_goals simp only [adc_exec, stepRet, Option.some.injEq, Prod.mk.injEq] at h
    all_goals omega
  rw [if_neg e23] at h
  by_cases e24 : op = 0x69
  · rw [if_pos e24] at h
    repeat'
      first
      | (rw [opt_bind_eq_some] at h
         obtain ⟨w, -, h⟩ := h
         try obtain ⟨w1, w2⟩ := w
         try dsimp only at h)
      | split at h
    all_goals simp only [adc_exec, stepRet, Option.some.injEq, Prod.mk.injEq] at h
    all_goals omega
  rw [if_neg e24] at h
  by_cases e25 : op = 0x65
  · rw [if_pos e25] at h
    repeat'
      first
      | (rw [opt_bind_eq_some] at h
         obtain ⟨w, -, h⟩ := h
         try obtain ⟨w1, w2⟩ := w
         try dsimp only at h)
      | split at h
    all_goals simp only [adc_exec, stepRet, Option.some.injEq, Prod.mk.injEq] at h
    all_goals omega
  rw [if_neg e25] at h
  by_cases e26 : op = 0xD0
  · rw [if_pos e26] at h
    repeat'
      first
      | (rw [opt_bind_eq_some] at h
         obtain ⟨w, -, h⟩ := h
         try obtain ⟨w1, w2⟩ := w
         try dsimp only at h)
      | split at h
    all_goals simp only [adc_exec, stepRet, Option.some.injEq, Prod.mk.injEq] at h
    all_goals omega
  rw [if_neg e26] at h
  by_cases e27 : op = 0xF0
  · rw [if_pos e27] at h
    repeat'
      first
      | (rw [opt_bind_eq_some] at h
         obtain ⟨w, -, h⟩ := h
         try obtain ⟨w1, w2⟩ := w
         try dsimp only at h)
      | split at h
    all_goals simp only [adc_exec, stepRet, Option.some.injEq, Prod.mk.injEq] at h
    all_goals omega
  rw [if_neg e27] at h
  by_cases e28 : op = 0x90
  · rw [if_pos e28] at h
    repeat'
      first
      | (rw [opt_bind_eq_some] at h
         obtain ⟨w, -, h⟩ := h
         try obtain ⟨w1, w2⟩ := w
         try dsimp only at h)
      | split at h
    all_goals simp only [adc_exec, stepRet, Option.some.injEq, Prod.mk.injEq] at h
    all_goals omega
  rw [if_neg e28] at h
  by_cases e29 : op = 0xB0
  · rw [if_pos e29] at h
    repeat'
      first
      | (rw [opt_bind_eq_some] at h
         obtain ⟨w, -, h⟩ := h
         try obtain ⟨w1, w2⟩ := w
         try dsimp only at h)
      | split at h
    all_goals simp only [adc_exec, stepRet, Option.some.injEq, Prod.mk.injEq] at h
    all_goals omega
  rw [if_neg e29] at h
  by_cases e30 : op = 0x4C
  · rw [if_pos e30] at h
    repeat'
      first
      | (rw [opt_bind_eq_some] at h
         obtain ⟨w, -, h⟩ := h
         try obtain ⟨w1, w2⟩ := w
         try dsimp only at h)
      | split at h
    all_goals simp only [adc_exec, stepRet, Option.some.injEq, Prod.mk.injEq] at h
    all_goals omega
  rw [if_neg e30] at h
  by_cases e31 : op = 0x6C
  · rw [if_pos e31] at h
    repeat'
      first
      | (rw [opt_bind_eq_some] at h
         obtain ⟨w, -, h⟩ := h
         try obtain ⟨w1, w2⟩ := w
         try dsimp only at h)
      | split at h
    all_goals simp only [adc_exec, stepRet, Option.some.injEq, Prod.mk.injEq] at h
    all_goals omega
  rw [if_neg e31] at h
  by_cases e32 : op = 0x20
  · rw [if_pos e32] at h
    repeat'
      first
      | (rw [opt_bind_eq_some] at h
         obtain ⟨w, -, h⟩ := h
         try obtain ⟨w1, w2⟩ := w
         try dsimp only at h)
      | split at h
    all_goals simp only [adc_exec, stepRet, Option.some.injEq, Prod.mk.injEq] at h
    all_goals omega
  rw [if_neg e32] at h
  by_cases e33 : op = 0x60
  · rw [if_pos e33] at h
    repeat'
      first
      | (rw [opt_bind_eq_some] at h
         obtain ⟨w, -, h⟩ := h
         try obtain ⟨w1, w2⟩ := w
         try dsimp only at h)
      | split at h
    all_goals simp only [adc_exec, stepRet, Option.some.injEq, Prod.mk.injEq] at h
    all_goals omega
  rw [if_neg e33] at h
  by_cases e34 : op = 0x00
  · rw [if_pos e34] at h
    repeat'
      first
      | (rw [opt_bind_eq_some] at h
         obtain ⟨w, -, h⟩ := h
         try obtain ⟨w1, w2⟩ := w
         try dsimp only at h)
      | split at h
    all_goals simp only [adc_exec, stepRet, Option.some.injEq, Prod.mk.injEq] at h
    all_goals omega
  rw [if_neg e34] at h
  by_cases e35 : op = 0x40
  · rw [if_pos e35] at h
    repeat'
      first
      | (rw [opt_bind_eq_some] at h
         obtain ⟨w, -, h⟩ := h
         try obtain ⟨w1, w2⟩ := w
         try dsimp only at h)
      | split at h
    all_goals simp only [adc_exec, stepRet, Option.some.injEq, Prod.mk.injEq] at h
    all_goals omega
  rw [if_neg e35] at h
  by_cases e36 : op = 0x18
  · rw [if_pos e36] at h
    repeat'
      first
      | (rw [opt_bind_eq_some] at h
         obtain ⟨w, -, h⟩ := h
         try obtain ⟨w1, w2⟩ := w
         try dsimp only at h)
      | split at h
    all_goals simp only [adc_exec, stepRet, Option.some.injEq, Prod.mk.injEq] at h
    all_goals omega
  rw [if_neg e36] at h
  by_cases e37 : op = 0x38
  · rw [if_pos e37] at h
    repeat'
      first
      | (rw [opt_bind_eq_some] at h
         obtain ⟨w, -, h⟩ := h
         try obtain ⟨w1, w2⟩ := w
         try dsimp only at h)
      | split at h
    all_goals simp only [adc_exec, stepRet, Option.some.injEq, Prod.mk.injEq] at h
    all_goals omega
  rw [if_neg e37] at h
  by_cases e38 : op = 0x58
  · rw [if_pos e38] at h
    repeat'
      first
      | (rw [opt_bind_eq_some] at h
         obtain ⟨w, -, h⟩ := h
         try obtain ⟨w1, w2⟩ := w
         try dsimp only at h)
      | split at h
    all_goals simp only [adc_exec, stepRet, Option.some.injEq, Prod.mk.injEq] at h
    all_goals omega
  rw [if_neg e38] at h
  by_cases e39 : op = 0x78
  · rw [if_pos e39] at h
    repeat'
      first
      | (rw [opt_bind_eq_some] at h
         obtain ⟨w, -, h⟩ := h
         try obtain ⟨w1, w2⟩ := w
         try dsimp only at h)
      | split at h
    all_goals simp only [adc_exec, stepRet, Option.some.injEq, Prod.mk.injEq] at h
    all_goals omega
  rw [if_neg e39] at h
  by_cases e40 : op = 0x48
  · rw [if_pos e40] at h
    repeat'
      first
      | (rw [opt_bind_eq_some] at h
         obtain ⟨w, -, h⟩ := h
         try obtain ⟨w1, w2⟩ := w
         try dsimp only at h)
      | split at h
    all_goals simp only [adc_exec, stepRet, Option.some.injEq, Prod.mk.injEq] at h
    all_goals omega
  rw [if_neg e40] at h
  by_cases e41 : op = 0x68
  · rw [if_pos e41] at h
    repeat'
      first
      | (rw [opt_bind_eq_some] at h
         obtain ⟨w, -, h⟩ := h
         try obtain ⟨w1, w2⟩ := w
         try dsimp only at h)
      | split at h
    all_goals simp only [adc_exec, stepRet, Option.some.injEq, Prod.mk.injEq] at h
    all_goals omega
  rw [if_neg e41] at h
  simp only [stepRet, Option.some.injEq, Prod.mk.injEq] at h
  omega

theorem cpu_step_cycles (s s' : NESState) (c : Nat)
    (h : cpu_step s = some (s', c)) : 2 ≤ c := by
  unfold cpu_step at h
  rw [opt_bind_eq_some] at h
  obtain ⟨w, -, h⟩ := h
  obtain ⟨w1, w2⟩ := w
  dsimp only at h
  exact exec_cycles _ _ _ _ h

/-- With `target ≤ cycles + fuel` the loop never runs out of fuel: every
iteration adds at least 2 cycles, so progress towards the budget is strict. -/
theorem run_go_not_fuelOut (target : Nat) (fuel cycles : Nat) (s : NESState)
    (hf : target ≤ cycles + fuel) :
    run_go target fuel cycles s ≠ RunOutcome.fuelOut := by
  induction fuel generalizing cycles s with
  | zero =>
    simp only [run_go]
    rw [if_pos (by omega)]
    simp
  | succ n ih =>
    simp only [run_go]
    by_cases hc : target ≤ cycles
    · rw [if_pos hc]; simp
    · rw [if_neg hc]
      cases hn : (if s.nmi_pending then nmi_service s else some s) with
      | none => simp
      | some s1 =>
        dsimp only
        cases hs : cpu_step s1 with
        | none => simp
        | some p =>
          obtain ⟨s2, c⟩ := p
          have hcyc := cpu_step_cycles _ _ _ hs
          dsimp only
          exact ih (cycles + c) s2 (by omega)

theorem shiftRight_comp (x a b : Nat) : (x >>> a) >>> b = x >>> (a + b) :=
  (Nat.shiftRight_add x a b).symm

/-- The `m`-th read (0-based) of `$4016` after any state returns bit `m` of
the shift register (plus the open-bus bit 6) and leaves the register shifted
right `m+1` times. -/
theorem nth_read_4016 (s : NESState) (m : Nat) :
    nth_read 0x4016 s m =
      some (((s.controller_shift0 >>> m) &&& 1) ||| 0x40,
            { s with controller_shift0 := s.controller_shift0 >>> (m + 1) }) := by
  induction m generalizing s with
  | zero => rfl
  | succ n ih =>
    show nth_read 0x4016 { s with controller_shift0 := s.controller_shift0 >>> 1 } n = _
    rw [ih]
    simp only [shiftRight_comp]
    rw [Nat.add_comm 1 n, Nat.add_comm 1 (n + 1)]

/-- Same as `nth_read_4016` for controller 2 at `$4017`. -/
theorem nth_read_4017 (s : NESState) (m : Nat) :
    nth_read 0x4017 s m =
      some (((s.controller_shift1 >>> m) &&& 1) ||| 0x40,
            { s with controller_shift1 := s.controller_shift1 >>> (m + 1) }) := by
  induction m generalizing s with
  | zero => rfl
  | succ n ih =>
    show nth_read 0x4017 { s with controller_shift1 := s.controller_shift1 >>> 1 } n = _
    rw [ih]
    simp only [shiftRight_comp]
    rw [Nat.add_comm 1 n, Nat.add_comm 1 (n + 1)]

theorem shift_exhausted (x k : Nat) (hx : x < 256) : x >>> (8 + k) = 0 := by
  rw [Nat.shiftRight_eq_div_pow]
  apply Nat.div_eq_of_lt
  calc x < 256 := hx
    _ = 2 ^ 8 := by norm_num
    _ ≤ 2 ^ (8 + k) := Nat.pow_le_pow_right (by norm_num) (by omega)

theorem range8_map_getD {α : Type} (f : Nat → α) (y : Nat) (hy : y < 8) (d : α) :
    ((List.range 8).map f).getD y d = f y := by
  rw [List.getD_eq_getElem?_getD, List.getElem?_map, List.getElem?_range hy]
  rfl

/-! Claim theorems. -/

/-- C1: the claim says nametable mirroring follows the cartridge flag, with a
write to `$2000` visible at `$2400` (and not `$2800`) under horizontal
mirroring.  Evaluating the code on a horizontal-flag cartridge refutes this:
after `write($2000, 1)` the PPU returns 0 at `$2400` and 1 at `$2800`,
because `PPU.read`/`PPU.write` always map the nametable window by
`(addr - 0x2000) & 0x07FF` and never consult `INESRom.mirroring`. -/
theorem c1_mirroring_ignores_flag :
    (ines_load c1bytes).map (fun rom =>
      let p := ppu_write (ppu_new rom) 0x2000 1
      (rom.mirroring, ppu_read p 0x2400, ppu_read p 0x2800))
      = some (Mirroring.horizontal, some 0, some 1) := by
  decide

/-- C2: the claim says `$3F10` aliases `$3F00` (and likewise for the other
three pairs).  Evaluating the code refutes it: palette indexing is the plain
`(addr - 0x3F00) % 32`, so a write of 5 to `$3F10` lands in entry 16 and is
not visible at `$3F00` (which still reads 0), and a write of 7 to `$3F00` is
not visible at `$3F10`. -/
theorem c2_no_palette_alias :
    ppu_read (ppu_write ppu0 0x3F10 5) 0x3F00 = some 0 ∧
    ppu_read (ppu_write ppu0 0x3F00 7) 0x3F10 = some 0 ∧
    ppu_read (ppu_write ppu0 0x3F10 5) 0x3F10 = some 5 := by
  decide

/-- C3: the claim says every documented opcode is implemented, with SBC
computing `A + (M XOR 0xFF) + C`.  Executing opcode `0xE9` (SBC immediate,
operand 1) from `c3state` (`A = 0`, carry clear) falls through to the
unknown-opcode fallback: `A` stays 0, `P` stays `0x24`, `PC` advances only
past the opcode byte, and 2 cycles are returned — whereas the claimed SBC
result is `(0 + (1 XOR 0xFF) + 0) & 0xFF = 0xFE ≠ 0`. -/
theorem c3_sbc_is_nop :
    (cpu_step c3state).map (fun p => (p.1.A, p.1.PC, p.1.P, p.2))
      = some (0, 1, 0x24, 2) ∧
    ((0 : Nat) + (0x01 ^^^ 0xFF) + 0) &&& 0xFF = 0xFE ∧ (0 : Nat) ≠ 0xFE := by
  decide

/-- C4: the claim says a background pixel whose pattern index is 0 is left
showing the universal background color (palette entry 0) regardless of the
selected subpalette.  Evaluating the render loop body on `c4ppu` (attribute
selects subpalette 1, tile pixels all 0, `$3F00 = 1`, `$3F04 = 2`) refutes
it: the pixel is written with the color at `$3F04` (entry 0 of subpalette 1),
index 2, not the universal background index 1. -/
theorem c4_bg_zero_pixel_uses_subpalette :
    bg_pixel_color_index c4ppu 0 0 0 0 = some 2 ∧
    ppu_read c4ppu 0x3F00 = some 1 ∧ (2 : Nat) ≠ 1 := by
  decide

/-- C5 (amended): servicing a pending NMI pushes PC high, PC low, then
`P & ~0x10 & 0xFF` — bit 4 cleared but bit 5 NOT forced to 1 — sets I, and
loads PC little-endian from `$FFFA/$FFFB` (the PRG bytes at offsets
`$3FFA/$3FFB` of a one-bank cartridge). -/
theorem c5_nmi_push_sequence (s : NESState) (hram : s.ram.length = 2048)
    (h2 : 3 ≤ s.SP) (h3 : s.SP ≤ 0xFF)
    (hb : s.prg_banks = 1) (hl : s.prg.length = 16384) :
    ∃ t, nmi_service s = some t ∧
      t.ram.getD (0x100 + s.SP) 0 = s.PC >>> 8 &&& 0xFF ∧
      t.ram.getD (0x100 + (s.SP - 1)) 0 = s.PC &&& 0xFF ∧
      t.ram.getD (0x100 + (s.SP - 2)) 0 = s.P &&& 0xEF &&& 0xFF ∧
      t.P = s.P ||| 0x04 ∧
      t.PC = ((s.prg.getD 0x3FFB 0) <<< 8) ||| s.prg.getD 0x3FFA 0 ∧
      t.SP = s.SP - 3 ∧ t.nmi_pending = false := by
  refine ⟨_, nmi_service_spec s h2 h3 hb hl, ?_, ?_, ?_, rfl, rfl, rfl, rfl⟩
  · rw [list_getD_set_ne _ _ _ _ (by omega), list_getD_set_ne _ _ _ _ (by omega),
        list_getD_set_eq _ _ _ (by omega)]
  · rw [list_getD_set_ne _ _ _ _ (by omega),
        list_getD_set_eq _ _ _ (by simp [List.length_set]; omega)]
  · rw [list_getD_set_eq _ _ _ (by simp [List.length_set]; omega)]

/-- C5 counterexample: from `c5state` (`P = 0x04`, bit 5 clear) the NMI
sequence pushes status byte `0x04` at `$01FB`, not the
`P & ~0x10 | 0x20 = 0x24` the claim requires. -/
theorem c5_nmi_status_counterexample :
    (nmi_service c5state).map (fun t => t.ram.getD 0x1FB 0) = some 0x04 ∧
    ((0x04 : Nat) &&& 0xEF) ||| 0x20 ≠ 0x04 := by
  refine ⟨?_, by decide⟩
  rw [nmi_service_spec c5state (by show (3:Nat) ≤ 0xFD; norm_num)
        (by show (0xFD:Nat) ≤ 0xFF; norm_num) rfl
        (by show (List.replicate 16384 (0:Nat)).length = 16384; rw [List.length_replicate])]
  show some (((((List.replicate 2048 0).set 0x1FD (0xC000 >>> 8 &&& 0xFF)).set
      0x1FC (0xC000 &&& 0xFF)).set 0x1FB (0x04 &&& 0xEF &&& 0xFF)).getD 0x1FB 0) = some 0x04
  rw [list_getD_set_eq _ _ _ (by simp only [List.length_set, List.length_replicate]; norm_num)]
  decide

/-- C5 witness: the amended NMI-sequence theorem instantiated at `c5state`. -/
theorem c5_nmi_push_sequence_witness :
    ∃ t, nmi_service c5state = some t ∧
      t.ram.getD (0x100 + c5state.SP) 0 = c5state.PC >>> 8 &&& 0xFF ∧
      t.ram.getD (0x100 + (c5state.SP - 1)) 0 = c5state.PC &&& 0xFF ∧
      t.ram.getD (0x100 + (c5state.SP - 2)) 0 = c5state.P &&& 0xEF &&& 0xFF ∧
      t.P = c5state.P ||| 0x04 ∧
      t.PC = ((c5state.prg.getD 0x3FFB 0) <<< 8) ||| c5state.prg.getD 0x3FFA 0 ∧
      t.SP = c5state.SP - 3 ∧ t.nmi_pending = false :=
  c5_nmi_push_sequence c5state
    (by show (List.replicate 2048 (0:Nat)).length = 2048; rw [List.length_replicate])
    (by show (3:Nat) ≤ 0xFD; norm_num)
    (by show (0xFD:Nat) ≤ 0xFF; norm_num) rfl
    (by show (List.replicate 16384 (0:Nat)).length = 16384; rw [List.length_replicate])

/-- C6 (amended): after latching (strobe 1 then 0) and eight reads of a port,
every further read returns 0 in bit 0 — the value is exactly `0x40` (open-bus
bit 6 only) — for any 8-bit latched button state, on both `$4016` and
`$4017`: the Python shift register shifts in zeros, so there is no
terminator bit. -/
theorem c6_controller_terminator_zero (s : NESState) (n : Nat)
    (h0 : s.controller_state0 < 256) (h1 : s.controller_state1 < 256) :
    (controller_read_after_latch 0x4016 s (8 + n)).map Prod.fst = some 0x40 ∧
    (controller_read_after_latch 0x4017 s (8 + n)).map Prod.fst = some 0x40 ∧
    (0x40 : Nat) &&& 1 = 0 := by
  refine ⟨?_, ?_, by decide⟩
  · show (nth_read 0x4016 (latched s) (8 + n)).map Prod.fst = some 0x40
    rw [nth_read_4016]
    show some (((latched s).controller_shift0 >>> (8 + n)) &&& 1 ||| 0x40) = some 0x40
    have hsh : (latched s).controller_shift0 = s.controller_state0 := rfl
    rw [hsh, shift_exhausted _ _ h0]; rfl
  · show (nth_read 0x4017 (latched s) (8 + n)).map Prod.fst = some 0x40
    rw [nth_read_4017]
    show some (((latched s).controller_shift1 >>> (8 + n)) &&& 1 ||| 0x40) = some 0x40
    have hsh : (latched s).controller_shift1 = s.controller_state1 := rfl
    rw [hsh, shift_exhausted _ _ h1]; rfl

/-- C6 counterexample: with all eight buttons of controller 1 held
(`c6state`), the ninth read after latching returns bit 0 = 0, not the 1 the
claim requires. -/
theorem c6_ninth_read_counterexample :
    (controller_read_after_latch 0x4016 c6state 8).map (fun p => p.1 &&& 1)
      = some 0 ∧ (0 : Nat) ≠ 1 := by
  decide

/-- C6 witness: the amended terminator theorem instantiated at `c6state` and
`n = 0` (the ninth read). -/
theorem c6_controller_terminator_zero_witness :
    (controller_read_after_latch 0x4016 c6state (8 + 0)).map Prod.fst = some 0x40 ∧
    (controller_read_after_latch 0x4017 c6state (8 + 0)).map Prod.fst = some 0x40 ∧
    (0x40 : Nat) &&& 1 = 0 :=
  c6_controller_terminator_zero c6state 0 (by decide) (by decide)

/-- C7 (amended): cartridge construction succeeds exactly when the file is at
least 16 bytes long and starts with the `NES\x1a` magic; the mapper number
and PRG bank count are parsed but never validated. -/
theorem c7_load_accepts_magic_only (data : List Nat) :
    (ines_load data).isSome ↔
      16 ≤ data.length ∧ data.take 4 = [0x4E, 0x45, 0x53, 0x1A] := by
  unfold ines_load
  by_cases h : (data.take 16).length < 16 ∨ (data.take 16).take 4 ≠ [0x4E, 0x45, 0x53, 0x1A]
  · rw [if_pos h]
    simp only [Option.isSome_none, Bool.false_eq_true, false_iff]
    intro hcon
    obtain ⟨h1, h2⟩ := hcon
    rcases h with h | h
    · rw [List.length_take] at h; omega
    · apply h
      rw [List.take_take]
      simpa using h2
  · rw [if_neg h]
    push_neg at h
    obtain ⟨h1, h2⟩ := h
    simp only [Option.isSome_some, true_iff]
    rw [List.length_take] at h1
    refine ⟨by omega, ?_⟩
    rw [List.take_take] at h2
    simpa using h2

/-- C7 counterexample: `c7bytes` declares mapper 4 and PRG bank count 3, both
of which the claim says must be refused, yet `ines_load` succeeds and returns
that cartridge. -/
theorem c7_mapper4_loads_counterexample :
    (ines_load c7bytes).map (fun rom => (rom.mapper, rom.prg_banks))
      = some (4, 3) := by
  decide

/-- C8: the tile decoder satisfies the spec formula: for a 16-byte tile,
`pixel[y][x]` composes bit `7-x` of plane-1 row `y` (the byte at offset
`8+y`) shifted left once with bit `7-x` of plane-0 row `y` (the byte at
offset `y`), and every pixel value is below 4. -/
theorem c8_tile_decode (t : List Nat) (y x : Nat) (ht : t.length = 16)
    (hy : y < 8) (hx : x < 8) :
    ((decode_tile_8x8 t).getD y []).getD x 0 =
      (((t.getD (8 + y) 0 >>> (7 - x)) &&& 1) <<< 1) |||
        ((t.getD y 0 >>> (7 - x)) &&& 1) ∧
    ((decode_tile_8x8 t).getD y []).getD x 0 < 4 := by
  have hplane0 : (t.take 8).getD y 0 = t.getD y 0 := by
    rw [List.getD_eq_getElem?_getD, List.getD_eq_getElem?_getD,
        List.getElem?_take_of_lt hy]
  have hplane1 : ((t.drop 8).take 8).getD y 0 = t.getD (8 + y) 0 := by
    rw [List.getD_eq_getElem?_getD, List.getD_eq_getElem?_getD,
        List.getElem?_take_of_lt hy, List.getElem?_drop]
  have hdec : ((decode_tile_8x8 t).getD y []).getD x 0 =
      ((((t.drop 8).take 8).getD y 0 >>> (7 - x)) &&& 1) <<< 1 |||
        (((t.take 8).getD y 0 >>> (7 - x)) &&& 1) := by
    unfold decode_tile_8x8
    rw [range8_map_getD _ y hy, range8_map_getD _ x hx]
  constructor
  · rw [hdec, hplane0, hplane1]
  · rw [hdec]
    have h0 : ((t.take 8).getD y 0 >>> (7 - x)) &&& 1 < 4 := by
      rw [and_mask_one]; omega
    have h1 : ((((t.drop 8).take 8).getD y 0 >>> (7 - x)) &&& 1) <<< 1 < 4 := by
      rw [and_mask_one, Nat.shiftLeft_eq]
      have := Nat.mod_lt (((t.drop 8).take 8).getD y 0 >>> (7 - x)) (y := 2) (by norm_num)
      omega
    calc ((((t.drop 8).take 8).getD y 0 >>> (7 - x)) &&& 1) <<< 1 |||
          (((t.take 8).getD y 0 >>> (7 - x)) &&& 1)
        < 2 ^ 2 := Nat.or_lt_two_pow (by simpa using h1) (by simpa using h0)
      _ = 4 := by norm_num

/-- C8 witness: the decode formula instantiated at `c8tile`, `y = 0`,
`x = 0` (plane-0 bit 7 is 0, plane-1 bit 7 is 1, so the pixel is 2). -/
theorem c8_tile_decode_witness :
    ((decode_tile_8x8 c8tile).getD 0 []).getD 0 0 =
      (((c8tile.getD (8 + 0) 0 >>> (7 - 0)) &&& 1) <<< 1) |||
        ((c8tile.getD 0 0 >>> (7 - 0)) &&& 1) ∧
    ((decode_tile_8x8 c8tile).getD 0 []).getD 0 0 < 4 :=
  c8_tile_decode c8tile 0 0 (by decide) (by decide) (by decide)

/-- C9: the frame loop always terminates.  Every `cpu_step` returns a cycle
count of at least 2 (the unknown-opcode fallback included), so
`run_cpu_cycles` — given one fuel unit per iteration, `target` in total —
always reaches its budget (or stops on a propagated memory error) and never
exhausts the fuel: the `while cycles < target` loop cannot run forever. -/
theorem c9_run_cpu_cycles_terminates :
    (∀ s : NESState, 2 ≤ ((cpu_step s).map Prod.snd).getD 2) ∧
    (∀ (s : NESState) (target : Nat),
      run_cpu_cycles s target ≠ RunOutcome.fuelOut) := by
  constructor
  · intro s
    cases hs : cpu_step s with
    | none => simp
    | some p =>
      obtain ⟨s2, c⟩ := p
      simpa using cpu_step_cycles _ _ _ hs
  · intro s target
    exact run_go_not_fuelOut target target 0 s (by omega)

/-- C9 witness: the termination theorem applied at `c3state` with a 4-cycle
budget. -/
theorem c9_run_cpu_cycles_terminates_witness :
    run_cpu_cycles c3state 4 ≠ RunOutcome.fuelOut :=
  c9_run_cpu_cycles_terminates.2 c3state 4

/-- C10: on a well-formed machine (construction-sized byte arrays and a
full-length 1- or 2-bank PRG image), `cpu_read` is total over the 16-bit
address space: it always returns a byte value, the open region
`$4020-$5FFF` reads as 0, and a 1-bank PRG is read modulo 16 KiB across
`$8000-$FFFF`. -/
theorem c10_cpu_read_total (s : NESState) (addr : Nat)
    (hwf : NES_WF s) (ha : addr ≤ 0xFFFF) :
    ∃ v s2, cpu_read s addr = some (v, s2) ∧ v ≤ 255 ∧
      (0x4020 ≤ addr → addr ≤ 0x5FFF → v = 0) ∧
      (0x8000 ≤ addr → s.prg_banks = 1 →
        v = s.prg.getD ((addr - 0x8000) % 16384) 0) := by
  obtain ⟨hrl, hrb, hsl, hsb, hbk, hpl, hpb⟩ := hwf
  have h0 : addr &&& 0xFFFF = addr := by rw [and_mask_ffff]; omega
  simp only [cpu_read, h0]
  by_cases h1 : addr ≤ 0x1FFF
  · rw [if_pos h1]
    have hi : addr &&& 0x7FF < s.ram.length := by rw [and_mask_7ff]; omega
    rw [list_get?_eq_getD _ _ hi]
    exact ⟨_, _, rfl, by have := list_getD_bound _ _ hi hrb; omega,
           fun h _ => by omega, fun h _ => by omega⟩
  rw [if_neg h1]
  by_cases h2 : addr ≤ 0x3FFF
  · rw [if_pos h2]
    exact ⟨_, _, rfl, by omega, fun h _ => by omega, fun h _ => by omega⟩
  rw [if_neg h2]
  by_cases h3 : addr ≤ 0x401F
  · rw [if_pos h3]
    by_cases h4 : addr = 0x4016
    · rw [if_pos h4]
      refine ⟨_, _, rfl, ?_, fun h _ => by omega, fun h _ => by omega⟩
      rcases Nat.mod_two_eq_zero_or_one s.controller_shift0 with hm | hm <;>
        · rw [and_mask_one, hm]; decide
    rw [if_neg h4]
    by_cases h5 : addr = 0x4017
    · rw [if_pos h5]
      refine ⟨_, _, rfl, ?_, fun h _ => by omega, fun h _ => by omega⟩
      rcases Nat.mod_two_eq_zero_or_one s.controller_shift1 with hm | hm <;>
        · rw [and_mask_one, hm]; decide
    rw [if_neg h5]
    exact ⟨_, _, rfl, by omega, fun h _ => by omega, fun h _ => by omega⟩
  rw [if_neg h3]
  by_cases h6 : 0x6000 ≤ addr ∧ addr ≤ 0x7FFF
  · rw [if_pos h6]
    have hi : addr - 0x6000 < s.sram.length := by omega
    rw [list_get?_eq_getD _ _ hi]
    exact ⟨_, _, rfl, by have := list_getD_bound _ _ hi hsb; omega,
           fun h hh => by omega, fun h _ => by omega⟩
  rw [if_neg h6]
  by_cases h7 : 0x8000 ≤ addr
  · rw [if_pos h7]
    rcases hbk with hb1 | hb2
    · rw [if_pos hb1]
      have hi : (addr - 0x8000) % (16 * 1024) < s.prg.length := by
        rw [hpl, hb1]
        have := Nat.mod_lt (addr - 0x8000) (y := 16 * 1024) (by norm_num)
        omega
      rw [list_get?_eq_getD _ _ hi]
      exact ⟨_, _, rfl, by have := list_getD_bound _ _ hi hpb; omega,
             fun h hh => by omega, fun _ _ => rfl⟩
    · rw [if_neg (by omega : ¬ s.prg_banks = 1)]
      have hi : addr - 0x8000 < s.prg.length := by rw [hpl, hb2]; omega
      rw [list_get?_eq_getD _ _ hi]
      exact ⟨_, _, rfl, by have := list_getD_bound _ _ hi hpb; omega,
             fun h hh => by omega, fun _ hb1 => by omega⟩
  rw [if_neg h7]
  exact ⟨_, _, rfl, by omega, fun _ _ => rfl, fun h _ => by omega⟩

/-- C10 witness: totality of `cpu_read` instantiated at `c5state` (a
well-formed one-bank machine) and address `$8000`. -/
theorem c10_cpu_read_total_witness :
    ∃ v s2, cpu_read c5state 0x8000 = some (v, s2) ∧ v ≤ 255 ∧
      (0x4020 ≤ 0x8000 → (0x8000 : Nat) ≤ 0x5FFF → v = 0) ∧
      ((0x8000 : Nat) ≤ 0x8000 → c5state.prg_banks = 1 →
        v = c5state.prg.getD ((0x8000 - 0x8000) % 16384) 0) :=
  c10_cpu_read_total c5state 0x8000
    ⟨by show (List.replicate 2048 (0:Nat)).length = 2048; rw [List.length_replicate],
     by intro b hb
        show b < 256
        have := List.eq_of_mem_replicate (show b ∈ List.replicate 2048 0 from hb)
        omega,
     by show (List.replicate 8192 (0:Nat)).length = 8192; rw [List.length_replicate],
     by intro b hb
        show b < 256
        have := List.eq_of_mem_replicate (show b ∈ List.replicate 8192 0 from hb)
        omega,
     Or.inl rfl,
     by show (List.replicate 16384 (0:Nat)).length = 1 * 16384; rw [List.length_replicate],
     by intro b hb
        show b < 256
        have := List.eq_of_mem_replicate (show b ∈ List.replicate 16384 0 from hb)
        omega⟩
    (by norm_num)
